import Mathlib

/-!
# Sentinel — verification of the natural-language specification

A shallow embedding, in Lean 4, of the parts of the Sentinel security-scanner
repository that the specification's claims are about:

* the lightweight role-based agent harness (`agents/agent_harness.py` embedded
  in the product document): the ten-iteration main loop, LLM decision parsing
  and validation, browser action execution, and the per-role vulnerability
  heuristics of `SecurityAgent`;
* the Node orchestrator's `stopScan` (`backend/orchestrator.js`);
* the dashboard's WebSocket client (`useWebSocket` hook): the `handleEvent`
  dispatch table, `defaultAgents`, the socket open/error/close handlers, and
  the per-agent iteration counter of the scan page;
* the Supabase live view (`runs/[id]/page.tsx`): the realtime session-update,
  event-insert and finding-insert handlers plus the polling fallback;
* the report page (`runs/[id]/report/page.tsx`): the severity-grouped
  rendering of detailed findings.

Python/TypeScript strings are Lean `String`s, JS truthiness of strings and
numbers is made explicit (`jsOrStr`, `jsOrNat`, `jsTemplate`), JS objects with
dynamic keys are association lists, and fallible browser operations return
`Option`.  Definitions mirror the source; predicates whose names start with
`spec` restate conditions in the specification's own vocabulary and are only
used on the statement side of theorems.
-/

set_option autoImplicit false

namespace Sentinel

/-! ## String helpers

Python's `needle in haystack` is substring containment; `str.lower()` maps
each character to lower case.  Both are modelled on the character list. -/

/-- `prefOf n h` is true when the character list `n` is an initial segment of `h`. -/
def prefOf : List Char → List Char → Bool
  | [], _ => true
  | _ :: _, [] => false
  | a :: as, b :: bs => a == b && prefOf as bs

/-- `subOf n h` is true when `n` occurs contiguously inside `h`
(Python's `n in h` on strings). -/
def subOf (needle : List Char) : List Char → Bool
  | [] => prefOf needle []
  | b :: bs => prefOf needle (b :: bs) || subOf needle bs

/-- Substring containment on `String`, haystack first (Python `needle in hay`). -/
def strContains (hay needle : String) : Bool :=
  subOf needle.toList hay.toList

/-- Python `str.lower()`. -/
def strLower (s : String) : String :=
  String.mk (s.toList.map Char.toLower)

/-- Characters after the first occurrence of `sep`, when `sep` occurs. -/
def dropAfter (sep : List Char) : List Char → Option (List Char)
  | [] => if prefOf sep [] then some [] else none
  | c :: cs => if prefOf sep (c :: cs) then some ((c :: cs).drop sep.length) else dropAfter sep cs

/-- The host component of a URL: everything after `://` up to the first
path, port, query or fragment delimiter.  This is statement-side vocabulary
for the domain-guard claim; the harness itself never parses hosts. -/
def hostOf (url : String) : String :=
  let rest := (dropAfter "://".toList url.toList).getD url.toList
  String.mk (rest.takeWhile (fun c => c != '/' && c != ':' && c != '?' && c != '#'))

/-! ## Association-list helpers

JS `Map` lookups, object-key lookups and `Array.prototype.findIndex` are
modelled on plain lists of pairs. -/

/-- First value stored under key `k` (JS `map.get(k)` / `obj[k]`). -/
def lookupA {κ β : Type} [BEq κ] : List (κ × β) → κ → Option β
  | [], _ => none
  | (k', v) :: rest, k => if k' == k then some v else lookupA rest k

/-- Index of the first element satisfying `p` (JS `Array.prototype.findIndex`,
with `none` for `-1`). -/
def findIdxA {α : Type} (p : α → Bool) : List α → Option Nat
  | [] => none
  | x :: xs => if p x then some 0 else (findIdxA p xs).map (· + 1)

/-- Remove every entry stored under key `k` (JS `map.delete(k)` on a map whose
keys are unique). -/
def eraseA {κ β : Type} [BEq κ] (m : List (κ × β)) (k : κ) : List (κ × β) :=
  m.filter (fun p => !(p.1 == k))

/-- Overwrite the first entry stored under `k`, appending when absent
(JS object spread `{ ...m, [k]: v }`). -/
def setA {κ β : Type} [BEq κ] : List (κ × β) → κ → β → List (κ × β)
  | [], k, v => [(k, v)]
  | (k', v') :: rest, k, v =>
    if k' == k then (k, v) :: rest else (k', v') :: setA rest k v

/-! ## Shared vocabulary -/

/-- The four-level severity enumeration (`CRITICAL | HIGH | MEDIUM | LOW`). -/
inductive Sev : Type where
  | CRITICAL
  | HIGH
  | MEDIUM
  | LOW
deriving DecidableEq, Repr

/-- Rank used for severity-ordered display: `CRITICAL` first, `LOW` last. -/
def sevRank : Sev → Nat
  | .CRITICAL => 0
  | .HIGH => 1
  | .MEDIUM => 2
  | .LOW => 3

/-! ## Agent harness (`agents/agent_harness.py`)

The Python harness drives one Playwright page per agent: a ten-iteration
loop of observe → ask Claude → execute → check for vulnerability →
screenshot.  The browser is modelled as an oracle giving the page that
results from each operation (`none` = the Playwright call raised). -/

namespace Harness

/-- A validated LLM decision: the strict four-field contract
`{action, selector, value, reasoning}`. -/
structure Decision : Type where
  action : String
  selector : String
  value : String
  reasoning : String
deriving DecidableEq, Repr

/-- A reported vulnerability object, as built by `check_for_vulnerability`.
`cvssTimes10` carries the CVSS score scaled by ten (e.g. `98` for `9.8`). -/
structure Vuln : Type where
  vtype : String
  severity : Sev
  location : String
  fieldSel : Option String := none
  payload : Option String := none
  methodTxt : Option String := none
  formSel : Option String := none
  evidence : String := ""
  cwe : String := ""
  cvssTimes10 : Nat := 0
deriving DecidableEq, Repr

/-- The observable page state (`page.url`, `page.title()`, `page.content()`). -/
structure Page : Type where
  url : String
  title : String := ""
  content : String := ""
deriving DecidableEq, Repr

/-- Browser oracle: the result of each Playwright operation the harness uses.
`none` models the call raising (timeout, bad selector, network error). -/
structure Browser : Type where
  fill : Page → String → String → Option Page
  click : Page → String → Option Page
  goto : String → Option Page

/-- Events sent over the agent's WebSocket (`send_event` call sites). -/
inductive Evt : Type where
  | started (role target : String)
  | thinking (status : String)
  | thought (text : String)
  | decisionEvt (iteration : Nat) (d : Decision)
  | actionEvt (action selector value reasoning : String)
  | errorEvt (action errMsg : String)
  | vulnFound (v : Vuln)
  | screenshotEvt (label url : String)
  | completeEvt (findings : List Vuln) (iterationsCompleted : Nat)
deriving DecidableEq, Repr

/-- The `type` string carried by each event frame. -/
def evtTypeName : Evt → String
  | .started _ _ => "agent.started"
  | .thinking _ => "agent.thinking"
  | .thought _ => "agent.thought"
  | .decisionEvt _ _ => "agent.decision"
  | .actionEvt _ _ _ _ => "agent.action"
  | .errorEvt _ _ => "agent.error"
  | .vulnFound _ => "vulnerability.found"
  | .screenshotEvt _ _ => "agent.screenshot"
  | .completeEvt _ _ => "agent.complete"

/-- `sql_indicators` from the sqli branch of `check_for_vulnerability`. -/
def sqlIndicators : List String :=
  ["sql syntax", "mysql", "postgresql", "sqlite", "database error",
   "you have an error in your sql", "warning: mysql", "unclosed quotation mark"]

/-- The payload marks tested by `any(char in payload for char in [...])`. -/
def sqlMetaChars : List String := ["'", "\"", "--", ";", "UNION"]

/-- `['welcome', 'dashboard', 'logout', 'admin panel']` in the sqli branch. -/
def authContentIndicators : List String := ["welcome", "dashboard", "logout", "admin panel"]

/-- `['<script', '<img', '<svg', 'onerror', 'onload']` in the xss branch. -/
def xssTags : List String := ["<script", "<img", "<svg", "onerror", "onload"]

/-- `['admin', 'dashboard', 'welcome', 'logout']` in the auth branch. -/
def authRoleIndicators : List String := ["admin", "dashboard", "welcome", "logout"]

/-- `['email', 'phone', 'address', 'ssn', 'credit card']` in the idor branch. -/
def idorPatterns : List String := ["email", "phone", "address", "ssn", "credit card"]

/-- Alternatives of the regex `/(users?|accounts?|profiles?)/`. -/
def idorWords : List String := ["users", "user", "accounts", "account", "profiles", "profile"]

/-- Whether the regex `/(users?|accounts?|profiles?)/\d+` matches starting at
the head of `cs`. -/
def idorSegAt (cs : List Char) : Bool :=
  match cs with
  | '/' :: rest =>
    idorWords.any (fun w =>
      prefOf w.toList rest &&
        (match rest.drop w.toList.length with
         | '/' :: d :: _ => d.isDigit
         | _ => false))
  | _ => false

/-- `re.search` of the IDOR path pattern anywhere in the URL. -/
def idorPathHit (url : String) : Bool :=
  go url.toList
where
  /-- Try the pattern at every suffix. -/
  go : List Char → Bool
    | [] => false
    | c :: cs => idorSegAt (c :: cs) || go cs

/-- `SecurityAgent.check_for_vulnerability`, translated branch by branch.
Arguments: the agent's role, the post-action page content and URL
(`page.content()`, `page.url`), the executed decision, and the URL captured
in `previous_state` before the action. -/
def checkForVulnerability (role : String) (currentContent currentUrl : String)
    (decision : Decision) (previousUrl : String) : Option Vuln :=
  if role = "sqli" then
    let payload := decision.value
    if sqlMetaChars.any (fun c => strContains payload c) then
      if authContentIndicators.any (fun i => strContains (strLower currentContent) i) &&
          (previousUrl != currentUrl || !(strContains (strLower currentUrl) "login")) then
        some { vtype := "SQL Injection - Authentication Bypass", severity := .CRITICAL,
               location := currentUrl, fieldSel := some decision.selector,
               payload := some payload,
               evidence := "Authentication bypassed with SQL injection payload",
               cwe := "CWE-89", cvssTimes10 := 98 }
      else if sqlIndicators.any (fun i => strContains (strLower currentContent) i) then
        some { vtype := "SQL Injection - Error-Based", severity := .HIGH,
               location := currentUrl, fieldSel := some decision.selector,
               payload := some payload,
               evidence := "Database error exposed: " ++ currentContent.take 200,
               cwe := "CWE-89", cvssTimes10 := 75 }
      else none
    else none
  else if role = "xss" then
    let payload := decision.value
    if xssTags.any (fun t => strContains payload t) then
      if strContains currentContent payload then
        some { vtype := "Reflected XSS", severity := .HIGH,
               location := currentUrl, fieldSel := some decision.selector,
               payload := some payload,
               evidence := "Payload reflected unsanitized in response",
               cwe := "CWE-79", cvssTimes10 := 71 }
      else none
    else none
  else if role = "auth" then
    if authRoleIndicators.any (fun i => strContains (strLower currentContent) i) then
      if strContains (strLower currentUrl) "admin" ||
          strContains (strLower currentUrl) "dashboard" then
        some { vtype := "Authentication Bypass", severity := .CRITICAL,
               location := currentUrl, methodTxt := some decision.reasoning,
               evidence := "Accessed privileged area without authentication",
               cwe := "CWE-287", cvssTimes10 := 91 }
      else none
    else none
  else if role = "idor" then
    if decision.action = "navigate" then
      if idorPatterns.any (fun p => strContains (strLower currentContent) p) then
        if idorPathHit currentUrl then
          some { vtype := "Insecure Direct Object Reference (IDOR)", severity := .HIGH,
                 location := currentUrl,
                 evidence := "Accessed user data by manipulating ID parameter",
                 cwe := "CWE-639", cvssTimes10 := 81 }
        else none
      else none
    else none
  else if role = "csrf" then
    if decision.action = "fill" then
      if !(strContains (strLower currentContent) "csrf") &&
          !(strContains (strLower currentContent) "token") then
        some { vtype := "Missing CSRF Protection", severity := .MEDIUM,
               location := currentUrl, formSel := some decision.selector,
               evidence := "State-changing form lacks CSRF token",
               cwe := "CWE-352", cvssTimes10 := 65 }
      else none
    else none
  else none

/-- `SecurityAgent.execute_action`: sends the `agent.action` event, then runs
the Playwright call for the decision's action type; a raised call is caught
and reported as an `agent.error` event with the page left as it was; an
unknown action type is only logged.  There is no domain check anywhere. -/
def executeAction (br : Browser) (page : Page) (d : Decision) : Page × List Evt :=
  let actionEvts := [Evt.actionEvt d.action d.selector d.value d.reasoning]
  if d.action = "fill" then
    match br.fill page d.selector d.value with
    | some p => (p, actionEvts)
    | none => (page, actionEvts ++ [Evt.errorEvt d.action "fill failed"])
  else if d.action = "click" then
    match br.click page d.selector with
    | some p => (p, actionEvts)
    | none => (page, actionEvts ++ [Evt.errorEvt d.action "click failed"])
  else if d.action = "navigate" then
    match br.goto d.value with
    | some p => (p, actionEvts)
    | none => (page, actionEvts ++ [Evt.errorEvt d.action "navigation failed"])
  else
    (page, actionEvts)

/-- The fields `get_next_action` requires of the parsed decision object. -/
def requiredFields : List String := ["action", "selector", "value", "reasoning"]

/-- The field-presence validation of `get_next_action`: all four required
fields must be present in the parsed JSON object. -/
def validateDecision (obj : List (String × String)) : Option Decision :=
  match lookupA obj "action", lookupA obj "selector",
        lookupA obj "value", lookupA obj "reasoning" with
  | some a, some s, some v, some r => some { action := a, selector := s, value := v, reasoning := r }
  | _, _, _, _ => none

/-- Outcome of one Claude call: `failed` is an exception from the API call
(caught, yielding no decision); `ok text parsed` is a returned response with
`parsed` the result of the `\{[^{}]*\}` regex search plus `json.loads`
(`none` when no JSON object was found or it did not parse). -/
inductive LlmResult : Type where
  | failed
  | ok (responseText : String) (parsed : Option (List (String × String)))

/-- The status text broadcast before each Claude call. -/
def thinkingStatus : String := "Asking Claude for next action..."

/-- `SecurityAgent.get_next_action`: broadcasts `agent.thinking`, calls the
API, broadcasts the truncated `agent.thought` on success, then parses and
validates; any failure yields no decision. -/
def getNextAction : LlmResult → Option Decision × List Evt
  | .failed => (none, [Evt.thinking thinkingStatus])
  | .ok text parsed =>
    let evts := [Evt.thinking thinkingStatus, Evt.thought (text.take 200)]
    match parsed with
    | none => (none, evts)
    | some obj => (validateDecision obj, evts)

/-- The loop state of `SecurityAgent.run`: current page, accumulated
findings, the event trace so far, and `self.iteration_count`. -/
structure LoopSt : Type where
  page : Page
  findings : List Vuln
  events : List Evt
  iterationCount : Nat
deriving Repr

/-- One iteration of the main loop: set `iteration_count`, capture state,
get the next action (a missing/invalid decision `continue`s the loop),
broadcast the decision, execute it, check for a vulnerability, broadcast any
finding, and screenshot. -/
def iterStep (br : Browser) (role : String) (st : LoopSt) (i : Nat)
    (llm : LlmResult) : LoopSt :=
  let ic := i + 1
  match getNextAction llm with
  | (none, thinkEvts) =>
    { st with iterationCount := ic, events := st.events ++ thinkEvts }
  | (some d, thinkEvts) =>
    let decEvt := Evt.decisionEvt ic d
    let exec := executeAction br st.page d
    let page' := exec.1
    let vOpt := checkForVulnerability role page'.content page'.url d st.page.url
    let findings' := match vOpt with
      | some v => st.findings ++ [v]
      | none => st.findings
    let vEvts := match vOpt with
      | some v => [Evt.vulnFound v]
      | none => ([] : List Evt)
    let shot := Evt.screenshotEvt ("iteration_" ++ toString ic) page'.url
    { page := page', findings := findings',
      events := st.events ++ thinkEvts ++ [decEvt] ++ exec.2 ++ vEvts ++ [shot],
      iterationCount := ic }

/-- `SecurityAgent.run` after the initial navigation landed on `p0`:
the `agent.started` event, the `initial_load` screenshot, ten loop
iterations (`for iteration in range(10)`), then the `agent.complete` event
carrying the findings and `iterations_completed`. -/
def runAgent (br : Browser) (role : String) (p0 : Page)
    (llm : Nat → LlmResult) : LoopSt :=
  let st0 : LoopSt :=
    { page := p0, findings := [],
      events := [Evt.started role p0.url, Evt.screenshotEvt "initial_load" p0.url],
      iterationCount := 0 }
  let stN := (List.range 10).foldl (fun st i => iterStep br role st i (llm i)) st0
  { stN with events := stN.events ++ [Evt.completeEvt stN.findings stN.iterationCount] }

/-! ### Specification-side predicates (statement vocabulary only) -/

/-- Spec wording: the payload carries SQL quote/comment/union syntax. -/
def specSqlMetaPayload (payload : String) : Bool :=
  sqlMetaChars.any (fun c => strContains payload c)

/-- Spec wording: the page content looks authenticated. -/
def specAuthLooking (content : String) : Bool :=
  authContentIndicators.any (fun i => strContains (strLower content) i)

/-- Spec wording: the content contains a database-error signature. -/
def specDbErrorSignal (content : String) : Bool :=
  sqlIndicators.any (fun i => strContains (strLower content) i)

/-- The URL condition guarding the sqli CRITICAL branch: the URL changed, or
the current URL does not look like a login page. -/
def specUrlMoved (previousUrl currentUrl : String) : Bool :=
  (previousUrl != currentUrl) || !(strContains (strLower currentUrl) "login")

/-- Spec wording: the payload contains a script or event-handler construct. -/
def specXssPayloadTag (payload : String) : Bool :=
  xssTags.any (fun t => strContains payload t)

/-- A browser oracle whose interactions keep the page and whose navigation
always succeeds, serving the requested URL. -/
def idBrowser : Browser where
  fill := fun p _ _ => some p
  click := fun p _ => some p
  goto := fun u => some { url := u }

/-- A concrete login page on the scan target's domain. -/
def targetLoginPage : Page :=
  { url := "https://target.example/login", title := "Login", content := "<form></form>" }

/-- A concrete LLM decision requesting navigation off the target's domain. -/
def offDomainDecision : Decision :=
  { action := "navigate", selector := "", value := "https://evil.example/phish",
    reasoning := "explore" }

/-- A concrete sqli probe decision whose payload is a bare quote. -/
def sqliProbeDecision : Decision :=
  { action := "fill", selector := "input[name=email]", value := "'",
    reasoning := "quote probe" }

end Harness

/-! ## Orchestrator (`backend/orchestrator.js`) — `stopScan`

```js
stopScan(scanId) {
  const agents = this.activeAgents.get(scanId);
  if (!agents) return;
  agents.forEach(proc => proc.kill());
  this.activeAgents.delete(scanId);
}
```

`activeAgents` maps a scan id to the list of spawned agent processes
(identified by pid).  The returned pair is the map after the call together
with the list of processes the call killed. -/

namespace Orchestrator

/-- `stopScan` on the orchestrator state: looks up `scanId` in `activeAgents`,
returns immediately when absent, otherwise kills the registered processes and
deletes the entry. -/
def stopScan (activeAgents : List (String × List Nat)) (scanId : String) :
    List (String × List Nat) × List Nat :=
  match lookupA activeAgents scanId with
  | none => (activeAgents, [])
  | some procs => (eraseA activeAgents scanId, procs)

end Orchestrator

/-! ## Dashboard WebSocket client (`useWebSocket` hook)

State shape, default agents, the `handleEvent` dispatch table and the socket
open/error/close handlers, translated from the TypeScript hook. -/

namespace WsClient

/-- The per-agent display status union. -/
inductive AStatus : Type where
  | idle
  | started
  | thinking
  | acting
  | complete
  | error
deriving DecidableEq, Repr

/-- The scan-level status union. -/
inductive ScanStatus : Type where
  | running
  | completed
  | stopped
  | error
deriving DecidableEq, Repr

/-- The structured `data` payload of an inbound event; every field the
dispatch table reads, each optional since the payload is untyped JSON. -/
structure EventData : Type where
  status : Option String := none
  thought : Option String := none
  iteration : Option Nat := none
  total : Option Nat := none
  decision : Option Harness.Decision := none
  action : Option String := none
  selector : Option String := none
  value : Option String := none
  reasoning : Option String := none
  screenshot : Option String := none
  findings : Option (List Harness.Vuln) := none
  message : Option String := none
  error : Option String := none
  vulnerability : Option Harness.Vuln := none
deriving DecidableEq, Repr

/-- An inbound WebSocket event frame (`AgentEvent` in the hook).  A missing
or zero `agentId` is falsy in the JS guard, modelled by `0`. -/
structure AgentEvent : Type where
  type : String
  agentId : Nat
  role : String
  scanId : String
  data : EventData := {}
  timestamp : Nat := 0
deriving DecidableEq, Repr

/-- Per-agent UI state (`AgentState` in the hook). -/
structure AgentState : Type where
  id : Nat
  role : String
  name : String
  status : AStatus
  iteration : Nat
  totalIterations : Nat
  currentAction : String
  reasoning : String
  screenshot : String
  findings : List Harness.Vuln
deriving DecidableEq, Repr

/-- A finding in the aggregate list: `{ ...vuln, agentId, role }`. -/
structure AggFinding : Type where
  vuln : Harness.Vuln
  agentId : Nat
  role : String
deriving DecidableEq, Repr

/-- The whole hook state (`ScanWsState`). -/
structure ScanWsState : Type where
  connected : Bool
  scanStatus : ScanStatus
  agents : List (Nat × AgentState)
  events : List AgentEvent
  findings : List AggFinding
  networkRequests : List EventData
deriving DecidableEq, Repr

/-- JS `x || dflt` on an optional string (empty string is falsy). -/
def jsOrStr (v : Option String) (dflt : String) : String :=
  match v with
  | some s => if s == "" then dflt else s
  | none => dflt

/-- JS `x || dflt` on an optional number (zero is falsy). -/
def jsOrNat (v : Option Nat) (dflt : Nat) : Nat :=
  match v with
  | some n => if n == 0 then dflt else n
  | none => dflt

/-- JS template interpolation of a possibly-undefined value
(`${undefined}` renders the string `"undefined"`). -/
def jsTemplate (v : Option String) : String :=
  match v with
  | some s => s
  | none => "undefined"

/-- `AGENT_NAMES` lookup table. -/
def agentNames : List (String × String) :=
  [("sqli", "SQL Injection"), ("xss", "XSS"), ("auth", "Auth Bypass"),
   ("idor", "IDOR"), ("csrf", "CSRF")]

/-- One default agent record as built by `defaultAgents()`; note
`totalIterations: 20`. -/
def mkDefaultAgent (id : Nat) (role : String) : AgentState :=
  { id := id, role := role, name := (lookupA agentNames role).getD role,
    status := .idle, iteration := 0, totalIterations := 20,
    currentAction := "", reasoning := "", screenshot := "", findings := [] }

/-- `defaultAgents()`: the five role slots keyed by agent id. -/
def defaultAgents : List (Nat × AgentState) :=
  [(1, mkDefaultAgent 1 "sqli"), (2, mkDefaultAgent 2 "xss"),
   (3, mkDefaultAgent 3 "auth"), (4, mkDefaultAgent 4 "idor"),
   (5, mkDefaultAgent 5 "csrf")]

/-- The initial hook state. -/
def initialState : ScanWsState :=
  { connected := false, scanStatus := .running, agents := defaultAgents,
    events := [], findings := [], networkRequests := [] }

/-- `${d.action}: ${d.selector || d.value || ""}` for `agent.decision`. -/
def decisionActionText (d : Harness.Decision) : String :=
  d.action ++ ": " ++ (if d.selector == "" then (if d.value == "" then "" else d.value) else d.selector)

/-- The JS fallback `event.data?.vulnerability || event.data`: the payload's
`vulnerability` object when present, otherwise the raw payload itself coerced
to a finding (modelled by an empty placeholder record). -/
def vulnOfData (d : EventData) : Harness.Vuln :=
  match d.vulnerability with
  | some v => v
  | none => { vtype := "", severity := .LOW, location := "" }

/-- The `switch (event.type)` body of `handleEvent`, run when the event names
a known agent: returns the updated agent record together with the new
aggregate finding list and network-request log (only the
`vulnerability.found` and `network.request` cases touch those two). -/
def agentSwitch (prev : ScanWsState) (agent : AgentState) (e : AgentEvent) :
    AgentState × List AggFinding × List EventData :=
  if e.type == "agent.started" then
    ({ agent with status := .started }, prev.findings, prev.networkRequests)
  else if e.type == "agent.thinking" then
    ({ agent with status := .thinking, currentAction := jsOrStr e.data.status "Thinking..." },
     prev.findings, prev.networkRequests)
  else if e.type == "agent.thought" then
    ({ agent with reasoning := jsOrStr e.data.thought "" },
     prev.findings, prev.networkRequests)
  else if e.type == "agent.decision" then
    let agent1 := { agent with status := AStatus.acting,
                               iteration := jsOrNat e.data.iteration agent.iteration }
    let agent2 :=
      match e.data.decision with
      | some d => { agent1 with currentAction := decisionActionText d, reasoning := d.reasoning }
      | none => agent1
    (agent2, prev.findings, prev.networkRequests)
  else if e.type == "agent.action" then
    ({ agent with status := .acting,
                  currentAction := jsTemplate e.data.action ++ ": " ++ jsOrStr e.data.selector "",
                  reasoning := jsOrStr e.data.reasoning agent.reasoning },
     prev.findings, prev.networkRequests)
  else if e.type == "agent.iteration" then
    ({ agent with iteration := jsOrNat e.data.iteration agent.iteration,
                  totalIterations := jsOrNat e.data.total 10 },
     prev.findings, prev.networkRequests)
  else if e.type == "agent.screenshot" then
    ({ agent with screenshot := jsOrStr e.data.screenshot "" },
     prev.findings, prev.networkRequests)
  else if e.type == "agent.complete" then
    ({ agent with status := .complete, findings := e.data.findings.getD [] },
     prev.findings, prev.networkRequests)
  else if e.type == "agent.error" then
    ({ agent with status := .error,
                  currentAction := jsOrStr e.data.message (jsOrStr e.data.error "Error") },
     prev.findings, prev.networkRequests)
  else if e.type == "vulnerability.found" then
    let vuln := vulnOfData e.data
    ({ agent with findings := agent.findings ++ [vuln] },
     prev.findings ++ [{ vuln := vuln, agentId := e.agentId, role := agent.role }],
     prev.networkRequests)
  else if e.type == "network.request" then
    (agent, prev.findings,
     (prev.networkRequests.drop (prev.networkRequests.length - 100)) ++ [e.data])
  else
    (agent, prev.findings, prev.networkRequests)

/-- `handleEvent`: append the event to the log, run the per-agent dispatch
when the event carries a known agent id, then apply the scan-level
`scan.complete` / `scan.stopped` status updates. -/
def handleEvent (prev : ScanWsState) (e : AgentEvent) : ScanWsState :=
  let base := { prev with events := prev.events ++ [e] }
  let afterAgent :=
    if e.agentId != 0 then
      match lookupA prev.agents e.agentId with
      | some agent =>
        let r := agentSwitch prev agent e
        { base with agents := setA prev.agents e.agentId r.1,
                    findings := r.2.1, networkRequests := r.2.2 }
      | none => base
    else base
  if e.type == "scan.complete" then { afterAgent with scanStatus := .completed }
  else if e.type == "scan.stopped" then { afterAgent with scanStatus := .stopped }
  else afterAgent

/-- `ws.onopen`: only sets the connected flag. -/
def onOpen (prev : ScanWsState) : ScanWsState :=
  { prev with connected := true }

/-- `ws.onerror`: only clears the connected flag. -/
def onSocketError (prev : ScanWsState) : ScanWsState :=
  { prev with connected := false }

/-- `ws.onclose`: only clears the connected flag. -/
def onClose (prev : ScanWsState) : ScanWsState :=
  { prev with connected := false }

/-- The scan page's per-agent counter text
(`{agent.iteration}/{agent.totalIterations}` in `AgentPanel`). -/
def iterationCounterText (a : AgentState) : String :=
  toString a.iteration ++ "/" ++ toString a.totalIterations

/-- A concrete `agent.decision` frame for agent 1 at iteration 3, as the
harness emits on its third loop iteration. -/
def decisionEvt3 : AgentEvent :=
  { type := "agent.decision", agentId := 1, role := "sqli", scanId := "s1",
    data := { iteration := some 3,
              decision := some { action := "fill", selector := "#email",
                                 value := "' OR '1'='1'--", reasoning := "probe" } } }

end WsClient

/-! ## Supabase live view (`runs/[id]/page.tsx`)

The realtime change-feed handlers and the polling fallback of `RunDetails`. -/

namespace LiveView

/-- An `agent_sessions` row. -/
structure AgentSession : Type where
  id : String
  runId : String
  agentType : String
  status : String
  progress : Nat := 0
deriving DecidableEq, Repr

/-- A `findings` row. -/
structure Finding : Type where
  id : String
  runId : String
  agentType : String
  severity : Sev
  title : String
  evidence : String := ""
  createdAt : Nat := 0
deriving DecidableEq, Repr

/-- A `run_events` row. -/
structure RunEvent : Type where
  id : String
  runId : String
  agentType : String
  eventType : String
  message : String := ""
  createdAt : Nat := 0
deriving DecidableEq, Repr

/-- The `agent_sessions` change handler: replace the row with the matching
id, appending when the id is new. -/
def applySessionUpdate (prev : List AgentSession) (s : AgentSession) :
    List AgentSession :=
  match findIdxA (fun x => x.id == s.id) prev with
  | none => prev ++ [s]
  | some i => prev.set i s

/-- The `run_events` INSERT handler: prepend and keep the newest 50
(`[payload.new, ...prev].slice(0, 50)`). -/
def applyEventInsert (prev : List RunEvent) (e : RunEvent) : List RunEvent :=
  (e :: prev).take 50

/-- The `findings` INSERT handler: unconditional append
(`[...prev, payload.new]`). -/
def applyFindingInsert (prev : List Finding) (f : Finding) : List Finding :=
  prev ++ [f]

/-- The polling fallback for findings: `setFindings(findRes.data)` replaces
the list with the server's. -/
def applyFindingsPoll (server : List Finding) : List Finding :=
  server

/-- The polling fallback for sessions: `setSessions(sessRes.data)` replaces
the list with the server's. -/
def applySessionsPoll (server : List AgentSession) : List AgentSession :=
  server

/-- A concrete finding row, as delivered by the change feed. -/
def sampleFinding : Finding :=
  { id := "f1", runId := "r1", agentType := "sqli", severity := .HIGH,
    title := "SQL Injection - Error-Based" }

/-- The `i`-th concrete event row used to exercise the bounded event log. -/
def evRec (i : Nat) : RunEvent :=
  { id := toString i, runId := "r1", agentType := "spider", eventType := "INFO" }

/-- The live-view event log after `n` change-feed inserts of distinct events,
starting from the empty log. -/
def liveEventLogAfter (n : Nat) : List RunEvent :=
  (List.range n).foldl (fun l i => applyEventInsert l (evRec i)) []

end LiveView

/-! ## Report page (`runs/[id]/report/page.tsx`) -/

namespace Report

/-- A report finding as rendered by the detailed-findings section. -/
structure RFinding : Type where
  id : String
  severity : Sev
  title : String
  evidence : String := ""
  recommendation : String := ""
  agentType : String := ""
deriving DecidableEq, Repr

/-- The severity display order of the detailed-findings section. -/
def severityOrder : List Sev := [.CRITICAL, .HIGH, .MEDIUM, .LOW]

/-- The order in which `ReportPage` renders detailed finding cards:
for each severity in display order, the findings of that severity filtered
from the report's list (`findings.filter(f => f.severity === sev)`),
concatenated. -/
def detailedFindings (findings : List RFinding) : List RFinding :=
  (severityOrder.map (fun sev => findings.filter (fun f => f.severity == sev))).flatten

end Report

end Sentinel

/-!
## Helper lemmas
-/

namespace Sentinel

theorem lookupA_eraseA {κ β : Type} [BEq κ] [LawfulBEq κ]
    (m : List (κ × β)) (k : κ) : lookupA (eraseA m k) k = none := by
  induction m with
  | nil => rfl
  | cons hd tl ih =>
    by_cases h : hd.1 == k
    · simpa [eraseA, List.filter, h] using ih
    · simp only [eraseA, List.filter] at ih ⊢
      simp only [h, Bool.not_false]
      simpa [lookupA, h] using ih

theorem validateDecision_none {obj : List (String × String)} {k : String}
    (hk : k ∈ Harness.requiredFields) (hl : lookupA obj k = none) :
    Harness.validateDecision obj = none := by
  simp only [Harness.requiredFields, List.mem_cons, List.not_mem_nil, or_false] at hk
  unfold Harness.validateDecision
  rcases hk with rfl | rfl | rfl | rfl <;>
    cases ha : lookupA obj "action" <;>
    cases hs : lookupA obj "selector" <;>
    cases hv : lookupA obj "value" <;>
    cases hr : lookupA obj "reasoning" <;>
    simp_all

theorem iterStep_iterationCount (br : Harness.Browser) (role : String)
    (st : Harness.LoopSt) (i : Nat) (llm : Harness.LlmResult) :
    (Harness.iterStep br role st i llm).iterationCount = i + 1 := by
  unfold Harness.iterStep
  cases hg : Harness.getNextAction llm with
  | mk dOpt evts => cases dOpt <;> rfl

theorem foldl_iterStep_count (br : Harness.Browser) (role : String)
    (llm : Nat → Harness.LlmResult) (st0 : Harness.LoopSt) :
    ((List.range 10).foldl (fun st i => Harness.iterStep br role st i (llm i))
        st0).iterationCount = 10 := by
  rw [show List.range 10 = [0, 1, 2, 3, 4, 5, 6, 7, 8, 9] from rfl]
  simp only [List.foldl_cons, List.foldl_nil]
  rw [iterStep_iterationCount]

theorem runAgent_iterationCount (br : Harness.Browser) (role : String)
    (p0 : Harness.Page) (llm : Nat → Harness.LlmResult) :
    (Harness.runAgent br role p0 llm).iterationCount = 10 := by
  unfold Harness.runAgent
  exact foldl_iterStep_count br role llm _

theorem runAgent_events_last (br : Harness.Browser) (role : String)
    (p0 : Harness.Page) (llm : Nat → Harness.LlmResult) :
    (Harness.runAgent br role p0 llm).events.getLast? =
      some (Harness.Evt.completeEvt (Harness.runAgent br role p0 llm).findings
        (Harness.runAgent br role p0 llm).iterationCount) := by
  unfold Harness.runAgent
  dsimp only
  rw [List.getLast?_concat]

theorem agentSwitch_totalIterations (prev : WsClient.ScanWsState)
    (agent : WsClient.AgentState) (e : WsClient.AgentEvent)
    (h : (e.type == "agent.iteration") = false) :
    ((WsClient.agentSwitch prev agent e).1).totalIterations =
      agent.totalIterations := by
  unfold WsClient.agentSwitch
  by_cases h1 : (e.type == "agent.started") = true
  · rw [if_pos h1]
  rw [if_neg h1]
  by_cases h2 : (e.type == "agent.thinking") = true
  · rw [if_pos h2]
  rw [if_neg h2]
  by_cases h3 : (e.type == "agent.thought") = true
  · rw [if_pos h3]
  rw [if_neg h3]
  by_cases h4 : (e.type == "agent.decision") = true
  · rw [if_pos h4]
    cases e.data.decision <;> rfl
  rw [if_neg h4]
  by_cases h5 : (e.type == "agent.action") = true
  · rw [if_pos h5]
  rw [if_neg h5]
  rw [if_neg (show ¬((e.type == "agent.iteration") = true) by simp [h])]
  by_cases h6 : (e.type == "agent.screenshot") = true
  · rw [if_pos h6]
  rw [if_neg h6]
  by_cases h7 : (e.type == "agent.complete") = true
  · rw [if_pos h7]
  rw [if_neg h7]
  by_cases h8 : (e.type == "agent.error") = true
  · rw [if_pos h8]
  rw [if_neg h8]
  by_cases h9 : (e.type == "vulnerability.found") = true
  · rw [if_pos h9]
  rw [if_neg h9]
  by_cases h10 : (e.type == "network.request") = true
  · rw [if_pos h10]
  rw [if_neg h10]

theorem agentSwitch_findings (prev : WsClient.ScanWsState)
    (agent : WsClient.AgentState) (e : WsClient.AgentEvent) :
    prev.findings <+: (WsClient.agentSwitch prev agent e).2.1 := by
  unfold WsClient.agentSwitch
  by_cases h1 : (e.type == "agent.started") = true
  · rw [if_pos h1]
  rw [if_neg h1]
  by_cases h2 : (e.type == "agent.thinking") = true
  · rw [if_pos h2]
  rw [if_neg h2]
  by_cases h3 : (e.type == "agent.thought") = true
  · rw [if_pos h3]
  rw [if_neg h3]
  by_cases h4 : (e.type == "agent.decision") = true
  · rw [if_pos h4]
  rw [if_neg h4]
  by_cases h5 : (e.type == "agent.action") = true
  · rw [if_pos h5]
  rw [if_neg h5]
  by_cases h6 : (e.type == "agent.iteration") = true
  · rw [if_pos h6]
  rw [if_neg h6]
  by_cases h7 : (e.type == "agent.screenshot") = true
  · rw [if_pos h7]
  rw [if_neg h7]
  by_cases h8 : (e.type == "agent.complete") = true
  · rw [if_pos h8]
  rw [if_neg h8]
  by_cases h9 : (e.type == "agent.error") = true
  · rw [if_pos h9]
  rw [if_neg h9]
  by_cases h10 : (e.type == "vulnerability.found") = true
  · rw [if_pos h10]; exact List.prefix_append _ _
  rw [if_neg h10]
  by_cases h11 : (e.type == "network.request") = true
  · rw [if_pos h11]
  rw [if_neg h11]

theorem handleEvent_events (prev : WsClient.ScanWsState) (e : WsClient.AgentEvent) :
    (WsClient.handleEvent prev e).events = prev.events ++ [e] := by
  unfold WsClient.handleEvent
  dsimp only
  by_cases h1 : (e.agentId != 0) = true
  · rw [if_pos h1]
    cases hl : lookupA prev.agents e.agentId with
    | none =>
      by_cases hc : (e.type == "scan.complete") = true
      · rw [if_pos hc]
      rw [if_neg hc]
      by_cases hs : (e.type == "scan.stopped") = true
      · rw [if_pos hs]
      rw [if_neg hs]
    | some agent =>
      by_cases hc : (e.type == "scan.complete") = true
      · rw [if_pos hc]
      rw [if_neg hc]
      by_cases hs : (e.type == "scan.stopped") = true
      · rw [if_pos hs]
      rw [if_neg hs]
  · rw [if_neg h1]
    by_cases hc : (e.type == "scan.complete") = true
    · rw [if_pos hc]
    rw [if_neg hc]
    by_cases hs : (e.type == "scan.stopped") = true
    · rw [if_pos hs]
    rw [if_neg hs]

theorem handleEvent_findings (prev : WsClient.ScanWsState) (e : WsClient.AgentEvent) :
    prev.findings <+: (WsClient.handleEvent prev e).findings := by
  unfold WsClient.handleEvent
  dsimp only
  by_cases h1 : (e.agentId != 0) = true
  · rw [if_pos h1]
    cases hl : lookupA prev.agents e.agentId with
    | none =>
      by_cases hc : (e.type == "scan.complete") = true
      · rw [if_pos hc]
      rw [if_neg hc]
      by_cases hs : (e.type == "scan.stopped") = true
      · rw [if_pos hs]
      rw [if_neg hs]
    | some agent =>
      by_cases hc : (e.type == "scan.complete") = true
      · rw [if_pos hc]; exact agentSwitch_findings prev agent e
      rw [if_neg hc]
      by_cases hs : (e.type == "scan.stopped") = true
      · rw [if_pos hs]; exact agentSwitch_findings prev agent e
      rw [if_neg hs]; exact agentSwitch_findings prev agent e
  · rw [if_neg h1]
    by_cases hc : (e.type == "scan.complete") = true
    · rw [if_pos hc]
    rw [if_neg hc]
    by_cases hs : (e.type == "scan.stopped") = true
    · rw [if_pos hs]
    rw [if_neg hs]

theorem applySessionUpdate_cons (x : LiveView.AgentSession)
    (xs : List LiveView.AgentSession) (s : LiveView.AgentSession) :
    LiveView.applySessionUpdate (x :: xs) s =
      if x.id == s.id then s :: xs else x :: LiveView.applySessionUpdate xs s := by
  by_cases h : (x.id == s.id) = true
  · rw [if_pos h]
    simp [LiveView.applySessionUpdate, findIdxA, h]
  · rw [if_neg h]
    simp only [LiveView.applySessionUpdate, findIdxA, h, if_false, Bool.false_eq_true]
    cases hf : findIdxA (fun y => y.id == s.id) xs with
    | none => simp
    | some i => simp

theorem applySessionUpdate_idem (prev : List LiveView.AgentSession)
    (s : LiveView.AgentSession) :
    LiveView.applySessionUpdate (LiveView.applySessionUpdate prev s) s =
      LiveView.applySessionUpdate prev s := by
  induction prev with
  | nil =>
    simp [LiveView.applySessionUpdate, findIdxA]
  | cons x xs ih =>
    rw [applySessionUpdate_cons]
    by_cases h : (x.id == s.id) = true
    · rw [if_pos h, applySessionUpdate_cons, if_pos (by simp)]
    · rw [if_neg h, applySessionUpdate_cons, if_neg h, ih]

theorem filter_sev_self (fs : List Report.RFinding) (s : Sev) :
    (fs.filter (fun f => f.severity == s)).filter (fun f => f.severity == s) =
      fs.filter (fun f => f.severity == s) := by
  simp [List.filter_filter]

theorem filter_sev_of_ne (fs : List Report.RFinding) (s t : Sev) (h : s ≠ t) :
    (fs.filter (fun f => f.severity == t)).filter (fun f => f.severity == s) = [] := by
  rw [List.filter_eq_nil_iff]
  intro a ha
  have ht : a.severity = t := by simpa using (List.mem_filter.mp ha).2
  simp only [beq_iff_eq]
  intro hs
  exact h (hs.symm.trans ht)

theorem detailedFindings_eq (fs : List Report.RFinding) :
    Report.detailedFindings fs =
      fs.filter (fun f => f.severity == Sev.CRITICAL) ++
        (fs.filter (fun f => f.severity == Sev.HIGH) ++
          (fs.filter (fun f => f.severity == Sev.MEDIUM) ++
            fs.filter (fun f => f.severity == Sev.LOW))) := by
  simp [Report.detailedFindings, Report.severityOrder]

theorem sev_of_mem_filter {fs : List Report.RFinding} {s : Sev}
    {a : Report.RFinding} (ha : a ∈ fs.filter (fun f => f.severity == s)) :
    a.severity = s := by
  simpa using (List.mem_filter.mp ha).2

theorem pairwise_filter_sev (fs : List Report.RFinding) (s : Sev) :
    (fs.filter (fun f => f.severity == s)).Pairwise
      (fun a b => sevRank a.severity ≤ sevRank b.severity) := by
  apply List.pairwise_of_forall_mem_list
  intro a ha b hb
  rw [sev_of_mem_filter ha, sev_of_mem_filter hb]

end Sentinel

open Sentinel

/-!
## Claim theorems
-/

/-- **C3.** Invoking `stopScan` on a run with no active agents registered for
its identifier (in particular a run that already completed or was already
stopped, since the orchestrator removes the entry on termination) is a no-op:
the `activeAgents` map is unchanged, no process is killed and no error is
possible.  Moreover, for every state, invoking `stopScan` twice has the same
effect as invoking it once: the second call finds no remaining entry, changes
no state and kills nothing. -/
theorem C3_stop_idempotent (m : List (String × List Nat)) (scanId : String) :
    (lookupA m scanId = none → Orchestrator.stopScan m scanId = (m, [])) ∧
    Orchestrator.stopScan (Orchestrator.stopScan m scanId).1 scanId =
      ((Orchestrator.stopScan m scanId).1, []) := by
  constructor
  · intro hterm
    simp [Orchestrator.stopScan, hterm]
  · cases h : lookupA m scanId with
    | none => simp [Orchestrator.stopScan, h]
    | some procs => simp [Orchestrator.stopScan, h, lookupA_eraseA]

/-- Witness for C3 at a concrete orchestrator state: scan `"s2"` has no
active agents in a map holding an entry for `"s1"` only, and stopping it
changes nothing. -/
theorem C3_stop_idempotent_witness :
    lookupA [("s1", [101, 102])] "s2" = none ∧
    Orchestrator.stopScan [("s1", [101, 102])] "s2" = ([("s1", [101, 102])], []) :=
  ⟨by decide, (C3_stop_idempotent [("s1", [101, 102])] "s2").1 (by decide)⟩

/-- **C1, counterexample.** The harness's `execute_action` holds no domain
guard: a decision navigating to `https://evil.example/phish` from a page on
`target.example` is executed as requested — the browser lands on the
off-domain URL (its host differs from the original page's host), and the
only event recorded is the ordinary `agent.action` event, no rejection. -/
theorem C1_counterexample :
    (Harness.executeAction Harness.idBrowser Harness.targetLoginPage
        Harness.offDomainDecision).1.url = "https://evil.example/phish" ∧
    hostOf (Harness.executeAction Harness.idBrowser Harness.targetLoginPage
        Harness.offDomainDecision).1.url ≠ hostOf Harness.targetLoginPage.url ∧
    (Harness.executeAction Harness.idBrowser Harness.targetLoginPage
        Harness.offDomainDecision).2 =
      [Harness.Evt.actionEvt "navigate" "" "https://evil.example/phish" "explore"] := by
  decide

/-- **C1, amended.** `execute_action` follows an LLM-chosen navigation
unconditionally, wherever it points: whenever the decision's action is
`navigate` and the browser navigation succeeds, the executed browser action
lands on exactly the page the decision's URL serves (on or off the original
domain — no host is ever compared), and the only event recorded is the
`agent.action` event; no rejection occurs and none is recorded. -/
theorem C1_navigation_follows_decision (br : Harness.Browser)
    (page p : Harness.Page) (d : Harness.Decision)
    (hnav : d.action = "navigate") (hgoto : br.goto d.value = some p) :
    Harness.executeAction br page d =
      (p, [Harness.Evt.actionEvt d.action d.selector d.value d.reasoning]) := by
  unfold Harness.executeAction
  rw [hnav, hgoto]
  rw [if_neg (by decide), if_neg (by decide), if_pos rfl]

/-- Witness for C1's amended theorem at the concrete off-domain decision. -/
theorem C1_navigation_follows_decision_witness :
    Harness.offDomainDecision.action = "navigate" ∧
    Harness.idBrowser.goto Harness.offDomainDecision.value =
      some { url := "https://evil.example/phish" } ∧
    Harness.executeAction Harness.idBrowser Harness.targetLoginPage
        Harness.offDomainDecision =
      ({ url := "https://evil.example/phish" },
       [Harness.Evt.actionEvt "navigate" "" "https://evil.example/phish" "explore"]) :=
  ⟨rfl, rfl,
   C1_navigation_follows_decision Harness.idBrowser Harness.targetLoginPage
     { url := "https://evil.example/phish" } Harness.offDomainDecision rfl rfl⟩

/-- **C7.** When the LLM response contains no JSON object, or the parsed
object lacks one of the required fields `action`, `selector`, `value`,
`reasoning`, `get_next_action` yields no decision (after the
`agent.thinking`/`agent.thought` broadcasts), and the loop iteration is a
no-op: page and findings are untouched, no browser action, decision event,
vulnerability check or screenshot happens, and the loop proceeds to the next
iteration with the iteration counter advanced — no crash. -/
theorem C7_invalid_decision_skips (br : Harness.Browser) (role : String)
    (st : Harness.LoopSt) (i : Nat) (text : String)
    (parsed : Option (List (String × String)))
    (h : parsed = none ∨
      ∃ obj k, parsed = some obj ∧ k ∈ Harness.requiredFields ∧ lookupA obj k = none) :
    Harness.getNextAction (.ok text parsed) =
      (none, [Harness.Evt.thinking Harness.thinkingStatus,
              Harness.Evt.thought (text.take 200)]) ∧
    Harness.iterStep br role st i (.ok text parsed) =
      { st with iterationCount := i + 1,
                events := st.events ++ [Harness.Evt.thinking Harness.thinkingStatus,
                                        Harness.Evt.thought (text.take 200)] } := by
  have hga : Harness.getNextAction (.ok text parsed) =
      (none, [Harness.Evt.thinking Harness.thinkingStatus,
              Harness.Evt.thought (text.take 200)]) := by
    rcases h with rfl | ⟨obj, k, rfl, hk, hl⟩
    · rfl
    · simp [Harness.getNextAction, validateDecision_none hk hl]
  refine ⟨hga, ?_⟩
  unfold Harness.iterStep
  rw [hga]

/-- Witness for C7: a response with no JSON object at all, on a fresh loop
state, leaves everything unchanged except the iteration counter and the
thinking/thought trace. -/
theorem C7_invalid_decision_skips_witness :
    Harness.getNextAction (.ok "no json here" none) =
      (none, [Harness.Evt.thinking Harness.thinkingStatus,
              Harness.Evt.thought (("no json here" : String).take 200)]) ∧
    Harness.iterStep Harness.idBrowser "sqli"
        { page := { url := "https://t.example" }, findings := [],
          events := [], iterationCount := 0 } 0 (.ok "no json here" none) =
      { page := { url := "https://t.example" }, findings := [],
        events := [Harness.Evt.thinking Harness.thinkingStatus,
                   Harness.Evt.thought (("no json here" : String).take 200)],
        iterationCount := 1 } :=
  C7_invalid_decision_skips Harness.idBrowser "sqli"
    { page := { url := "https://t.example" }, findings := [],
      events := [], iterationCount := 0 } 0 "no json here" none (Or.inl rfl)

/-- **C4, counterexample.** The dashboard's per-agent iteration counter does
not display the count out of a total of 10: `defaultAgents()` initialises
`totalIterations` to 20, and after the harness's `agent.decision` event for
iteration 3 the counter renders `"3/20"`, not `"3/10"`. -/
theorem C4_counterexample :
    (lookupA (WsClient.handleEvent WsClient.initialState WsClient.decisionEvt3).agents 1).map
        WsClient.iterationCounterText = some "3/20" ∧
    (lookupA (WsClient.handleEvent WsClient.initialState WsClient.decisionEvt3).agents 1).map
        (fun a => a.totalIterations) ≠ some 10 := by
  decide

/-- **C4, amended.** The harness's main loop executes exactly ten iterations
before emitting `agent.complete` (whose payload carries
`iterations_completed = 10` and the accumulated findings), but the
dashboard's per-agent iteration counter displays the count out of a default
total of 20: the total is only ever changed by an `agent.iteration` event,
the harness's event vocabulary contains no such event, and every other event
type leaves `totalIterations` untouched. -/
theorem C4_ten_iterations_total_twenty :
    (∀ (br : Harness.Browser) (role : String) (p0 : Harness.Page)
        (llm : Nat → Harness.LlmResult),
        (Harness.runAgent br role p0 llm).iterationCount = 10 ∧
        (Harness.runAgent br role p0 llm).events.getLast? =
          some (Harness.Evt.completeEvt (Harness.runAgent br role p0 llm).findings 10)) ∧
    (∀ ev : Harness.Evt, Harness.evtTypeName ev ≠ "agent.iteration") ∧
    (∀ p ∈ WsClient.defaultAgents, p.2.totalIterations = 20) ∧
    (∀ (prev : WsClient.ScanWsState) (agent : WsClient.AgentState)
        (e : WsClient.AgentEvent),
        (e.type == "agent.iteration") = false →
        ((WsClient.agentSwitch prev agent e).1).totalIterations =
          agent.totalIterations) := by
  refine ⟨fun br role p0 llm => ⟨runAgent_iterationCount br role p0 llm, ?_⟩,
          ?_, by decide, agentSwitch_totalIterations⟩
  · rw [runAgent_events_last br role p0 llm, runAgent_iterationCount br role p0 llm]
  · intro ev
    cases ev <;> simp [Harness.evtTypeName]

/-- Witness for C4's amended theorem: a run of the sqli agent against a
failing LLM completes its ten iterations, and the dashboard's agent 1 keeps
its default total of 20 through the concrete `agent.decision` event. -/
theorem C4_ten_iterations_total_twenty_witness :
    (Harness.runAgent Harness.idBrowser "sqli" { url := "https://t.example" }
        (fun _ => .failed)).iterationCount = 10 ∧
    Harness.evtTypeName (Harness.Evt.started "sqli" "https://t.example") ≠ "agent.iteration" ∧
    (1, WsClient.mkDefaultAgent 1 "sqli").2.totalIterations = 20 ∧
    ((WsClient.agentSwitch WsClient.initialState (WsClient.mkDefaultAgent 1 "sqli")
        WsClient.decisionEvt3).1).totalIterations =
      (WsClient.mkDefaultAgent 1 "sqli").totalIterations :=
  ⟨(C4_ten_iterations_total_twenty.1 Harness.idBrowser "sqli"
      { url := "https://t.example" } (fun _ => .failed)).1,
   C4_ten_iterations_total_twenty.2.1 (Harness.Evt.started "sqli" "https://t.example"),
   C4_ten_iterations_total_twenty.2.2.1 (1, WsClient.mkDefaultAgent 1 "sqli")
     (List.mem_cons_self _ _),
   C4_ten_iterations_total_twenty.2.2.2 WsClient.initialState
     (WsClient.mkDefaultAgent 1 "sqli") WsClient.decisionEvt3 (by decide)⟩

/-- **C5, counterexample.** The sqli heuristic's CRITICAL auth-bypass branch
does not require a tautology payload or a prior login page: a bare quote
payload (`'`) filled on `/products` that lands on `/home` with "Welcome" in
the content is reported CRITICAL, although the prior state's URL contains no
`login` marker at all (so the prior state was not a login page). -/
theorem C5_counterexample :
    (Harness.checkForVulnerability "sqli" "Welcome back" "http://t.example/home"
        Harness.sqliProbeDecision "http://t.example/products").map (fun v => v.severity) =
      some Sev.CRITICAL ∧
    strContains (strLower "http://t.example/products") "login" = false := by
  decide

/-- **C5, amended.** For the sqli role, `check_for_vulnerability` reports a
CRITICAL auth-bypass finding exactly when the payload carries SQL
quote/comment/union syntax, the post-action content looks authenticated
(welcome/dashboard/logout/admin panel), and the URL changed or the current
URL does not contain `login` — the payload need not be a tautology and the
prior state need not be a login page; and it reports a HIGH error-based
finding exactly when the payload carries such syntax, the content contains a
database-error signature, and the CRITICAL condition did not fire first. -/
theorem C5_sqli_characterization (content url : String) (d : Harness.Decision)
    (prevUrl : String) :
    ((Harness.checkForVulnerability "sqli" content url d prevUrl).map
        (fun v => v.severity) = some Sev.CRITICAL ↔
      (Harness.specSqlMetaPayload d.value = true ∧
       Harness.specAuthLooking content = true ∧
       Harness.specUrlMoved prevUrl url = true)) ∧
    ((Harness.checkForVulnerability "sqli" content url d prevUrl).map
        (fun v => v.severity) = some Sev.HIGH ↔
      (Harness.specSqlMetaPayload d.value = true ∧
       Harness.specDbErrorSignal content = true ∧
       ¬(Harness.specAuthLooking content = true ∧
         Harness.specUrlMoved prevUrl url = true))) := by
  simp only [Harness.checkForVulnerability, Harness.specSqlMetaPayload,
    Harness.specAuthLooking, Harness.specDbErrorSignal, Harness.specUrlMoved,
    if_true]
  by_cases h1 : Harness.sqlMetaChars.any (fun c => strContains d.value c) = true <;>
  by_cases h2 : Harness.authContentIndicators.any
      (fun i => strContains (strLower content) i) = true <;>
  by_cases h3 : (prevUrl != url || !strContains (strLower url) "login") = true <;>
  by_cases h4 : Harness.sqlIndicators.any
      (fun i => strContains (strLower content) i) = true <;>
  simp [h1, h2, h3, h4]

/-- Witness for C5's amended characterization at the counterexample's
concrete inputs. -/
theorem C5_sqli_characterization_witness :
    ((Harness.checkForVulnerability "sqli" "Welcome back" "http://t.example/home"
        Harness.sqliProbeDecision "http://t.example/products").map
        (fun v => v.severity) = some Sev.CRITICAL ↔
      (Harness.specSqlMetaPayload Harness.sqliProbeDecision.value = true ∧
       Harness.specAuthLooking "Welcome back" = true ∧
       Harness.specUrlMoved "http://t.example/products" "http://t.example/home" = true)) ∧
    ((Harness.checkForVulnerability "sqli" "Welcome back" "http://t.example/home"
        Harness.sqliProbeDecision "http://t.example/products").map
        (fun v => v.severity) = some Sev.HIGH ↔
      (Harness.specSqlMetaPayload Harness.sqliProbeDecision.value = true ∧
       Harness.specDbErrorSignal "Welcome back" = true ∧
       ¬(Harness.specAuthLooking "Welcome back" = true ∧
         Harness.specUrlMoved "http://t.example/products" "http://t.example/home" = true))) :=
  C5_sqli_characterization "Welcome back" "http://t.example/home"
    Harness.sqliProbeDecision "http://t.example/products"

/-- **C6.** For the xss role, `check_for_vulnerability` reports a finding if
and only if the payload contains one of the script/event-handler constructs
(`<script`, `<img`, `<svg`, `onerror`, `onload`) and the payload string
appears verbatim, unmodified, in the post-action page content; and the
finding it then reports is a HIGH `Reflected XSS` finding. -/
theorem C6_xss_characterization (content url : String) (d : Harness.Decision)
    (prevUrl : String) :
    (Harness.checkForVulnerability "xss" content url d prevUrl).map
        (fun v => v.severity) =
      (if Harness.specXssPayloadTag d.value && strContains content d.value
       then some Sev.HIGH else none) ∧
    (Harness.checkForVulnerability "xss" content url d prevUrl).map
        (fun v => v.vtype) =
      (if Harness.specXssPayloadTag d.value && strContains content d.value
       then some "Reflected XSS" else none) := by
  simp only [Harness.checkForVulnerability, Harness.specXssPayloadTag]
  rw [if_neg (by decide : ¬(("xss" : String) = "sqli"))]
  simp only [if_true]
  by_cases h1 : Harness.xssTags.any (fun t => strContains d.value t) = true <;>
  by_cases h2 : strContains content d.value = true <;>
  simp [h1, h2]

/-- **C9.** The socket `onopen`, `onerror` and `onclose` handlers change only
the `connected` flag: the agents map, event log, finding list,
network-request log and scan status are all left exactly as they were. -/
theorem C9_socket_handlers_frame (s : WsClient.ScanWsState) :
    (WsClient.onOpen s).connected = true ∧
    (WsClient.onSocketError s).connected = false ∧
    (WsClient.onClose s).connected = false ∧
    ((WsClient.onOpen s).agents = s.agents ∧
     (WsClient.onOpen s).events = s.events ∧
     (WsClient.onOpen s).findings = s.findings ∧
     (WsClient.onOpen s).networkRequests = s.networkRequests ∧
     (WsClient.onOpen s).scanStatus = s.scanStatus) ∧
    ((WsClient.onSocketError s).agents = s.agents ∧
     (WsClient.onSocketError s).events = s.events ∧
     (WsClient.onSocketError s).findings = s.findings ∧
     (WsClient.onSocketError s).networkRequests = s.networkRequests ∧
     (WsClient.onSocketError s).scanStatus = s.scanStatus) ∧
    ((WsClient.onClose s).agents = s.agents ∧
     (WsClient.onClose s).events = s.events ∧
     (WsClient.onClose s).findings = s.findings ∧
     (WsClient.onClose s).networkRequests = s.networkRequests ∧
     (WsClient.onClose s).scanStatus = s.scanStatus) :=
  ⟨rfl, rfl, rfl, ⟨rfl, rfl, rfl, rfl, rfl⟩, ⟨rfl, rfl, rfl, rfl, rfl⟩,
   ⟨rfl, rfl, rfl, rfl, rfl⟩⟩

/-- **C2, counterexample.** The live view's `findings` INSERT handler is an
unconditional append: the same finding delivered twice by the change feed
(equally, delivered once by a polling refresh and then again by a delayed
change-feed INSERT notification) is stored twice, so the aggregate finding
count is doubled instead of equalling the single-delivery state. -/
theorem C2_counterexample :
    LiveView.applyFindingInsert
        (LiveView.applyFindingInsert [] LiveView.sampleFinding) LiveView.sampleFinding ≠
      LiveView.applyFindingInsert [] LiveView.sampleFinding ∧
    (LiveView.applyFindingInsert
        (LiveView.applyFindingsPoll [LiveView.sampleFinding]) LiveView.sampleFinding).length = 2 := by
  decide

/-- **C2, amended.** Duplicate `AgentSession` deliveries merge by identifier
and are idempotent (the state after two identical deliveries equals the state
after one), and a polling refresh replaces the finding list wholesale with the
server's copy (so change-feed-plus-poll in that order does not double-count);
but the change-feed `Finding` INSERT handler appends unconditionally, so a
duplicate finding delivery through the change feed is double-counted rather
than merged by identifier. -/
theorem C2_merge_by_identifier :
    (∀ (prev : List LiveView.AgentSession) (s : LiveView.AgentSession),
        LiveView.applySessionUpdate (LiveView.applySessionUpdate prev s) s =
          LiveView.applySessionUpdate prev s) ∧
    (∀ (server : List LiveView.Finding),
        LiveView.applyFindingsPoll server = server) ∧
    (∀ (prev : List LiveView.Finding) (f : LiveView.Finding),
        LiveView.applyFindingInsert prev f = prev ++ [f]) :=
  ⟨applySessionUpdate_idem, fun _ => rfl, fun _ _ => rfl⟩

/-- **C8, counterexample.** Processing an inbound event can remove previously
accumulated events from the live view's event log: the `run_events` INSERT
handler keeps only the newest 50 rows, so after 50 inserts the very first
event is still present, and the 51st insert drops it. -/
theorem C8_counterexample :
    LiveView.evRec 0 ∈ LiveView.liveEventLogAfter 50 ∧
    LiveView.evRec 0 ∉ LiveView.liveEventLogAfter 51 := by
  decide

/-- **C8, amended.** The WebSocket client's accumulation is purely additive
for the event log and the aggregate finding list — every processed event is
appended to the log and the finding list never loses elements, in-place
agent/status updates aside.  The live view's finding handler likewise only
appends.  Its event log, however, is a bounded newest-first window: the
INSERT handler prepends the new row and keeps only the newest 50, dropping
the oldest accumulated events beyond that bound. -/
theorem C8_additive_with_bounded_live_log :
    (∀ (prev : WsClient.ScanWsState) (e : WsClient.AgentEvent),
        (WsClient.handleEvent prev e).events = prev.events ++ [e] ∧
        prev.findings <+: (WsClient.handleEvent prev e).findings) ∧
    (∀ (prev : List LiveView.Finding) (f : LiveView.Finding),
        LiveView.applyFindingInsert prev f = prev ++ [f]) ∧
    (∀ (prev : List LiveView.RunEvent) (e : LiveView.RunEvent),
        LiveView.applyEventInsert prev e = e :: prev.take 49) :=
  ⟨fun prev e => ⟨handleEvent_events prev e, handleEvent_findings prev e⟩,
   fun _ _ => rfl,
   fun _ _ => List.take_succ_cons⟩

/-- **C10.** The report view renders the detailed findings grouped by
severity in the order CRITICAL, HIGH, MEDIUM, LOW — the rendered sequence is
sorted by severity rank — and within each severity group the findings appear
in exactly the same relative order as in the report's input list. -/
theorem C10_report_severity_grouping (fs : List Report.RFinding) :
    (Report.detailedFindings fs).Pairwise
      (fun a b => sevRank a.severity ≤ sevRank b.severity) ∧
    (∀ sev : Sev,
        (Report.detailedFindings fs).filter (fun f => f.severity == sev) =
          fs.filter (fun f => f.severity == sev)) := by
  constructor
  · rw [detailedFindings_eq]
    refine List.pairwise_append.mpr ⟨pairwise_filter_sev fs Sev.CRITICAL,
      List.pairwise_append.mpr ⟨pairwise_filter_sev fs Sev.HIGH,
        List.pairwise_append.mpr ⟨pairwise_filter_sev fs Sev.MEDIUM,
          pairwise_filter_sev fs Sev.LOW, ?_⟩, ?_⟩, ?_⟩
    · intro a ha b hb
      rw [sev_of_mem_filter ha, sev_of_mem_filter hb]
      decide
    · intro a ha b hb
      rw [sev_of_mem_filter ha]
      rcases List.mem_append.mp hb with hb | hb <;>
        rw [sev_of_mem_filter hb] <;> decide
    · intro a ha b hb
      rw [sev_of_mem_filter ha]
      rcases List.mem_append.mp hb with hb | hb
      · rw [sev_of_mem_filter hb]; decide
      rcases List.mem_append.mp hb with hb | hb <;>
        rw [sev_of_mem_filter hb] <;> decide
  · intro sev
    rw [detailedFindings_eq]
    simp only [List.filter_append]
    cases sev
    case CRITICAL =>
      rw [filter_sev_self, filter_sev_of_ne fs _ _ (by decide),
        filter_sev_of_ne fs _ _ (by decide), filter_sev_of_ne fs _ _ (by decide)]
      simp
    case HIGH =>
      rw [filter_sev_self, filter_sev_of_ne fs _ _ (by decide),
        filter_sev_of_ne fs _ _ (by decide), filter_sev_of_ne fs _ _ (by decide)]
      simp
    case MEDIUM =>
      rw [filter_sev_self, filter_sev_of_ne fs _ _ (by decide),
        filter_sev_of_ne fs _ _ (by decide), filter_sev_of_ne fs _ _ (by decide)]
      simp
    case LOW =>
      rw [filter_sev_self, filter_sev_of_ne fs _ _ (by decide),
        filter_sev_of_ne fs _ _ (by decide), filter_sev_of_ne fs _ _ (by decide)]
      simp
